import Mathlib

/-
Verification of the collision/impact-detection core of the rider-assist
application (component `CollisionDetection`, file
src/src/components/CollisionDetection.tsx).

Numbers are idealized over the rationals (exact arithmetic).  The source
computes `gForce = Math.sqrt(x^2 + y^2 + z^2)` and only ever compares this
value against non-negative thresholds (15, 25, 40, 60); since
`sqrt s >= c <-> s >= c^2` for `c >= 0`, the embedding carries the squared
magnitude `gForceSq` and compares against squared thresholds, which keeps
every definition computable.  The equivalence with the literal
square-root formulation is proved (see the C4 theorem, stated with
`Real.sqrt`).
-/

namespace RiderAssist

/-- One 3-axis accelerometer reading, fields `x`, `y`, `z` (m/s^2),
mirroring `sensorData.acceleration` of the source. -/
structure Accel where
  x : ℚ
  y : ℚ
  z : ℚ
deriving DecidableEq, Repr

/-- One 3-axis gyroscope reading, fields `alpha`, `beta`, `gamma`,
mirroring `sensorData.gyroscope` of the source. -/
structure Gyro where
  alpha : ℚ
  beta : ℚ
  gamma : ℚ
deriving DecidableEq, Repr

/-- A synchronized sensor sample handed to the detection loop
(the `sensorData` prop of `CollisionDetection`). -/
structure SensorSample where
  acceleration : Accel
  gyroscope : Gyro
deriving DecidableEq, Repr

/-- The five-valued severity enum of `ImpactAnalysis`
(source union type `safe | minor | moderate | severe | critical`). -/
inductive Severity where
  | safe
  | minor
  | moderate
  | severe
  | critical
deriving DecidableEq, Repr

/-- Numeric rank of a severity in the spec ordering
safe < minor < moderate < severe < critical. -/
def sevRank : Severity → ℕ
  | .safe => 0
  | .minor => 1
  | .moderate => 2
  | .severe => 3
  | .critical => 4

/-- The G-force thresholds of the source, `THRESHOLDS` object
(minor 15, moderate 25, severe 40, critical 60, in m/s^2). -/
def THRESHOLDS_minor : ℚ := 15

/-- Moderate threshold (hard braking or minor collision). -/
def THRESHOLDS_moderate : ℚ := 25

/-- Severe threshold (significant impact). -/
def THRESHOLDS_severe : ℚ := 40

/-- Critical threshold (major collision). -/
def THRESHOLDS_critical : ℚ := 60

/-- Squared acceleration magnitude `x^2 + y^2 + z^2`; the source computes
`gForce = Math.sqrt` of this value. -/
def gForceSqOf (a : Accel) : ℚ := a.x ^ 2 + a.y ^ 2 + a.z ^ 2

/-- Squared rotation magnitude `alpha^2 + beta^2 + gamma^2`; the source
computes `rotationRate = Math.sqrt` of this value. -/
def rotationRateSqOf (g : Gyro) : ℚ := g.alpha ^ 2 + g.beta ^ 2 + g.gamma ^ 2

/-- Severity classification of `analyzeImpact`: the source tests
`gForce >= 60 / 40 / 25 / 15` from highest to lowest, first match wins,
else `safe`.  Here the same chain on the squared magnitude: for the
non-negative threshold `c`, the source test `sqrt gSq >= c` holds exactly
when `gSq >= c^2`. -/
def severityOfSq (gSq : ℚ) : Severity :=
  if THRESHOLDS_critical ^ 2 ≤ gSq then .critical
  else if THRESHOLDS_severe ^ 2 ≤ gSq then .severe
  else if THRESHOLDS_moderate ^ 2 ≤ gSq then .moderate
  else if THRESHOLDS_minor ^ 2 ≤ gSq then .minor
  else .safe

/-- Impact direction of `analyzeImpact`: `maxAxis = Math.max(|x|,|y|,|z|)`,
then `maxAxis === |x|` gives Right/Left by sign of x, else
`maxAxis === |y|` gives Forward/Backward, else Upward/Downward.
The initial value `None` of the source variable is immediately
overwritten by this chain (one of the three branches always fires),
so the result is always one of the six direction strings. -/
def directionOf (a : Accel) : String :=
  let maxAxis := max (max |a.x| |a.y|) |a.z|
  if maxAxis = |a.x| then (if 0 < a.x then "Right" else "Left")
  else if maxAxis = |a.y| then (if 0 < a.y then "Forward" else "Backward")
  else (if 0 < a.z then "Upward" else "Downward")

/-- Result record of `analyzeImpact`.  `gForce` and `rotationRate` are
carried squared (see file comment); the `confidence` field of the source
(`min(100, (gForce/10)*20 + (rotationRate/100)*30)`) is display-only
metadata, never used in any decision of the component, and is the one
field needing a square root value, so it is not carried here. -/
structure ImpactAnalysis where
  gForceSq : ℚ
  rotationRateSq : ℚ
  impactDirection : String
  severity : Severity
deriving DecidableEq, Repr

/-- The pure analyzer `analyzeImpact(accel, gyro)` of the source. -/
def analyzeImpact (accel : Accel) (gyro : Gyro) : ImpactAnalysis :=
  { gForceSq := gForceSqOf accel
    rotationRateSq := rotationRateSqOf gyro
    impactDirection := directionOf accel
    severity := severityOfSq (gForceSqOf accel) }

/-- The three-valued `CrashEvent.type` of the source
(`minor | moderate | severe`; analysis severities severe and critical
both collapse to `severe`). -/
inductive CrashType where
  | minor
  | moderate
  | severe
deriving DecidableEq, Repr

/-- Latitude/longitude snapshot stored in a CrashEvent
(source object `{ lat, lng }`). -/
structure LatLng where
  lat : ℚ
  lng : ℚ
deriving DecidableEq, Repr

/-- The `locationData` prop: latitude, longitude, and speed in m/s where
`speed` is nullable (`speed: number | null`). -/
structure LocationData where
  latitude : ℚ
  longitude : ℚ
  speed : Option ℚ
deriving DecidableEq, Repr

/-- A detected incident, mirroring the `CrashEvent` interface of the
source field for field.  `gForceSq` carries the square of the stored
`gForce` (see file comment); `timestamp` is the epoch-millisecond clock
value `now` used at construction. -/
structure CrashEvent where
  id : String
  timestamp : ℤ
  gForceSq : ℚ
  type : CrashType
  location : Option LatLng
  speed : Option ℚ
  gyroData : Option Gyro
  reported : Bool
deriving DecidableEq, Repr

/-- Decimal digit characters of the fractional part of a non-negative
rational, produced by repeated multiplication by 10 until the remainder
vanishes; `fuel` bounds the recursion.  Every number the browser runtime
can hold is a dyadic rational, whose decimal expansion terminates, so
with enough fuel this renders the exact expansion. -/
def fracDigitsAux : ℕ → ℚ → List Char
  | 0, _ => []
  | fuel + 1, r =>
    if r = 0 then []
    else
      let r10 := r * 10
      Char.ofNat (48 + (⌊r10⌋).toNat) :: fracDigitsAux fuel (r10 - ⌊r10⌋)

/-- Exact decimal rendering of a non-negative rational, integer part then
a dot and the fractional digits (no dot for whole numbers), as the
JavaScript number-to-string conversion produces for the dyadic rationals
occurring at runtime. -/
def jsNumStrNonneg (q : ℚ) : String :=
  let fds := fracDigitsAux 1100 (q - ⌊q⌋)
  toString (⌊q⌋).toNat ++ (if fds.isEmpty then "" else "." ++ String.mk fds)

/-- JavaScript number-to-string conversion used by the template literal
in the maps link: sign, then the decimal rendering of the magnitude. -/
def jsNumStr (q : ℚ) : String :=
  if q < 0 then "-" ++ jsNumStrNonneg (-q) else jsNumStrNonneg q

/-- The integer that `Number.prototype.toFixed(d)` rounds the magnitude
to: the multiple of `10 ^ (-d)` nearest to the magnitude, ties toward
the larger value (ECMA-262 ToFixed). -/
def toFixedInt (d : ℕ) (q : ℚ) : ℕ := (⌊q * 10 ^ d + 1 / 2⌋).toNat

/-- The rational value denoted by the `toFixed(d)` rendering of `q`
(sign times rounded magnitude scaled back down). -/
def toFixedVal (d : ℕ) (q : ℚ) : ℚ :=
  if q < 0 then -((toFixedInt d (-q) : ℚ) / 10 ^ d)
  else (toFixedInt d q : ℚ) / 10 ^ d

/-- String form of `Number.prototype.toFixed(d)` for `d > 0`: optional
minus sign, integer part, dot, and exactly `d` fractional digits
(zero-padded on the left). -/
def toFixedStr (d : ℕ) (q : ℚ) : String :=
  let n := toFixedInt d |q|
  let fs := toString (n % 10 ^ d)
  (if q < 0 then "-" else "") ++ toString (n / 10 ^ d) ++ "." ++
    (String.mk (List.replicate (d - fs.length) '0') ++ fs)

/-- The structured crash report of `generateCrashReport`.  The
`deviceInfo` stamp (browser user agent) is external environment data and
is not modelled; `timestampMs` carries the timestamp value whose ISO
rendering the source emits, and `gForceSq` the squared g-force whose
root the source renders to two decimals. -/
structure CrashReport where
  reportId : String
  timestampMs : ℤ
  severity : CrashType
  gForceSq : ℚ
  speedAtImpact : String
  gyroscope : Option Gyro
  location : String
  mapsLink : Option String
deriving DecidableEq, Repr

/-- The report builder `generateCrashReport(crash)` of the source:
`speedAtImpact` is the speed to one decimal or the string Unknown when
the speed field is absent; `location` is the string `lat, lng` with both
coordinates to six decimals, or Unknown when no location was captured;
`mapsLink` interpolates the raw coordinates into the Google Maps URL
template, or is null without a location; `reportId` copies the event id. -/
def generateCrashReport (crash : CrashEvent) : CrashReport :=
  { reportId := crash.id
    timestampMs := crash.timestamp
    severity := crash.type
    gForceSq := crash.gForceSq
    speedAtImpact :=
      match crash.speed with
      | some v => toFixedStr 1 v
      | none => "Unknown"
    gyroscope := crash.gyroData
    location :=
      match crash.location with
      | some l => toFixedStr 6 l.lat ++ ", " ++ toFixedStr 6 l.lng
      | none => "Unknown"
    mapsLink :=
      match crash.location with
      | some l =>
          some ("https://maps.google.com/?q=" ++ jsNumStr l.lat ++ "," ++ jsNumStr l.lng)
      | none => none }

/-- Bounded prepend used at every history append site of the source:
`[event, ...prev].slice(0, 20)` — the new event goes in front and the
list is truncated to the 20 most recent entries. -/
def pushCrash (e : CrashEvent) (l : List CrashEvent) : List CrashEvent :=
  (e :: l).take 20

/-- State of the `CollisionDetection` component.  The React state hooks
map to fields one for one; `timerActive` models whether the countdown
interval of the countdown effect is currently installed
(`countdownRef.current`).  The last three fields instrument the
interactions the claims count: every report built by
`generateCrashReport`, every invocation of the external
`onEmergencyTrigger` collaborator, and the construction time of every
CrashEvent the detection loop creates. -/
structure SysState where
  impactAnalysis : ImpactAnalysis
  crashHistory : List CrashEvent
  activeCrash : Option CrashEvent
  countdown : ℕ
  showCrashDialog : Bool
  isMonitoring : Bool
  lastCrashTime : ℤ
  timerActive : Bool
  reportsBuilt : List CrashReport
  dispatcherCalls : ℕ
  createdAt : List ℤ
deriving DecidableEq, Repr

/-- Initial component state: empty history, no active crash, countdown
15, monitoring on, `lastCrashTime` ref initialized to 0, initial display
analysis all zero with direction None and severity safe. -/
def initialState : SysState :=
  { impactAnalysis :=
      { gForceSq := 0, rotationRateSq := 0, impactDirection := "None", severity := .safe }
    crashHistory := []
    activeCrash := none
    countdown := 15
    showCrashDialog := false
    isMonitoring := true
    lastCrashTime := 0
    timerActive := false
    reportsBuilt := []
    dispatcherCalls := 0
    createdAt := [] }

/-- The CrashEvent constructed by the detection effect (source lines
133-143): time-derived id, collapsed type (critical and severe both
stored as severe), optional location snapshot, speed converted from m/s
to km/h — note the source guard `locationData?.speed ? ... : undefined`
is a JavaScript truthiness test, so a speed of exactly 0 m/s (falsy)
leaves the field undefined just like a null speed — and the gyro
snapshot, with `reported` initially false. -/
def mkCrashEvent (now : ℤ) (analysis : ImpactAnalysis) (gyro : Gyro)
    (loc : Option LocationData) : CrashEvent :=
  { id := "crash_" ++ toString now
    timestamp := now
    gForceSq := analysis.gForceSq
    type :=
      if analysis.severity = .critical ∨ analysis.severity = .severe then .severe
      else if analysis.severity = .moderate then .moderate
      else .minor
    location := loc.map fun l => { lat := l.latitude, lng := l.longitude }
    speed :=
      match loc with
      | some l =>
        match l.speed with
        | some v => if v = 0 then none else some (v * 3.6)
        | none => none
      | none => none
    gyroData := some gyro
    reported := false }

/-- The detection effect (source lines 120-176), run once per incoming
sensor sample at clock value `now`.  Early exit when monitoring is off
(or no sensor data arrives, in which case the effect is simply not
invoked).  Otherwise the display analysis is updated, and a new crash
event is created only when the analysis is not safe, strictly more than
30000 ms passed since `lastCrashTime`, and no crash is active; the event
is then either promoted to an escalation session with countdown 10
(critical) or 15, or — for a minor impact — appended straight to the
history. -/
def processSample (now : ℤ) (sensor : SensorSample) (loc : Option LocationData)
    (s : SysState) : SysState :=
  if ¬ s.isMonitoring then s
  else
    let analysis := analyzeImpact sensor.acceleration sensor.gyroscope
    let s1 := { s with impactAnalysis := analysis }
    if analysis.severity ≠ .safe ∧ 30000 < now - s1.lastCrashTime ∧
        s1.activeCrash = none then
      let ev := mkCrashEvent now analysis sensor.gyroscope loc
      let s2 := { s1 with lastCrashTime := now, createdAt := now :: s1.createdAt }
      if analysis.severity = .moderate ∨ analysis.severity = .severe ∨
          analysis.severity = .critical then
        { s2 with
            activeCrash := some ev
            showCrashDialog := true
            countdown := if analysis.severity = .critical then 10 else 15
            timerActive := true }
      else
        { s2 with crashHistory := pushCrash ev s2.crashHistory }
    else s1

/-- `triggerEmergency` of the source: clears the countdown interval;
when a crash is active, marks it reported, appends it to the bounded
history and builds exactly one crash report for it; then — outside the
active-crash guard — invokes the `onEmergencyTrigger` collaborator,
closes the dialog and clears the active crash. -/
def triggerEmergency (s : SysState) : SysState :=
  let s1 := { s with timerActive := false }
  let s2 :=
    match s1.activeCrash with
    | some c =>
      let reportedCrash := { c with reported := true }
      { s1 with
          crashHistory := pushCrash reportedCrash s1.crashHistory
          reportsBuilt := generateCrashReport reportedCrash :: s1.reportsBuilt }
    | none => s1
  { s2 with
      dispatcherCalls := s2.dispatcherCalls + 1
      showCrashDialog := false
      activeCrash := none }

/-- `cancelAlert` of the source: clears the countdown interval and stops
vibration; when a crash is active, appends it to the history with
`reported := false`; closes the dialog, clears the active crash and
resets the countdown to 15.  No report is built and the dispatcher is
not invoked. -/
def cancelAlert (s : SysState) : SysState :=
  let s1 := { s with timerActive := false }
  let s2 :=
    match s1.activeCrash with
    | some c =>
      { s1 with crashHistory := pushCrash { c with reported := false } s1.crashHistory }
    | none => s1
  { s2 with
      showCrashDialog := false
      activeCrash := none
      countdown := 15 }

/-- One firing of the countdown interval (source lines 181-192): only
possible while the interval is installed; at countdown value 1 or below
it calls `triggerEmergency` and sets the countdown to 0, otherwise it
decrements (the danger haptic emitted at values of 5 and below is an
external side effect). -/
def tickCountdown (s : SysState) : SysState :=
  if s.timerActive then
    if s.countdown ≤ 1 then { triggerEmergency s with countdown := 0 }
    else { s with countdown := s.countdown - 1 }
  else s

/-- External stimuli of the component: a sensor sample arriving, a
countdown interval firing, the manual emergency button, the cancel
button, and the monitoring toggle. -/
inductive Step where
  | sample (now : ℤ) (sensor : SensorSample) (loc : Option LocationData)
  | tick
  | trigger
  | cancel
  | setMonitoring (b : Bool)
deriving DecidableEq, Repr

/-- Apply one stimulus to the component state. -/
def applyStep (s : SysState) : Step → SysState
  | .sample now sensor loc => processSample now sensor loc s
  | .tick => tickCountdown s
  | .trigger => triggerEmergency s
  | .cancel => cancelAlert s
  | .setMonitoring b => { s with isMonitoring := b }

/-- Run a sequence of stimuli from a given state. -/
def runSteps (steps : List Step) (s : SysState) : SysState :=
  steps.foldl applyStep s

/-- Cooldown bookkeeping invariant: the recorded construction times of
crash events are pairwise more than 30000 ms apart (newest first), and
none is later than the `lastCrashTime` ref. -/
def cooldownInv (s : SysState) : Prop :=
  List.Pairwise (fun t u => 30000 < t - u) s.createdAt ∧
  ∀ t ∈ s.createdAt, t ≤ s.lastCrashTime

/-- A concrete moderate sample: acceleration (30, 0, 0), still gyro. -/
def moderateSample : SensorSample := ⟨⟨30, 0, 0⟩, ⟨0, 0, 0⟩⟩

/-- A concrete critical sample: acceleration (60, 0, 0), still gyro. -/
def criticalSample : SensorSample := ⟨⟨60, 0, 0⟩, ⟨0, 0, 0⟩⟩

/-- The crash event produced by processing `moderateSample` at clock
value 40000 with no location data. -/
def sampleCrash : CrashEvent :=
  mkCrashEvent 40000 (analyzeImpact moderateSample.acceleration moderateSample.gyroscope)
    moderateSample.gyroscope none

/-- Armed state with the countdown already at 1, as the countdown
interval is about to fire for the last time; reached from the initial
state by `moderateSample` at clock 40000 followed by 14 interval
firings. -/
def armedAtOne : SysState :=
  { impactAnalysis := analyzeImpact moderateSample.acceleration moderateSample.gyroscope
    crashHistory := []
    activeCrash := some sampleCrash
    countdown := 1
    showCrashDialog := true
    isMonitoring := true
    lastCrashTime := 40000
    timerActive := true
    reportsBuilt := []
    dispatcherCalls := 0
    createdAt := [40000] }

/-- State reached from the initial state right after `moderateSample`
arrives at clock value 40000: an escalation session armed on
`sampleCrash` with countdown 15. -/
def armedState : SysState :=
  { armedAtOne with countdown := 15 }

/-- Concrete location fixture with a standstill speed of exactly 0 m/s. -/
def stillLocation : LocationData :=
  { latitude := 12.5, longitude := -3.25, speed := some 0 }

/-- Crash event fixture carrying a location snapshot. -/
def locatedCrash : CrashEvent :=
  { sampleCrash with location := some { lat := 12.5, lng := -3.25 } }

/-- For non-negative rational `c` and `s`, the source comparison
`sqrt s >= c` agrees with the squared comparison carried by the model. -/
theorem rat_le_sqrt_iff_sq_le (c s : ℚ) (hc : 0 ≤ c) (hs : 0 ≤ s) :
    ((c : ℝ) ≤ Real.sqrt ((s : ℚ) : ℝ)) ↔ c ^ 2 ≤ s := by
  rw [Real.le_sqrt (by exact_mod_cast hc) (by exact_mod_cast hs)]
  constructor <;> intro h <;> exact_mod_cast h

/-- The squared-threshold severity chain coincides with the literal
first-match-wins chain on the square root. -/
theorem severityOfSq_eq_sqrt_chain (s : ℚ) (hs : 0 ≤ s) :
    severityOfSq s =
      (if (60 : ℝ) ≤ Real.sqrt ((s : ℚ) : ℝ) then Severity.critical
       else if (40 : ℝ) ≤ Real.sqrt ((s : ℚ) : ℝ) then Severity.severe
       else if (25 : ℝ) ≤ Real.sqrt ((s : ℚ) : ℝ) then Severity.moderate
       else if (15 : ℝ) ≤ Real.sqrt ((s : ℚ) : ℝ) then Severity.minor
       else Severity.safe) := by
  have h60 := rat_le_sqrt_iff_sq_le 60 s (by norm_num) hs
  have h40 := rat_le_sqrt_iff_sq_le 40 s (by norm_num) hs
  have h25 := rat_le_sqrt_iff_sq_le 25 s (by norm_num) hs
  have h15 := rat_le_sqrt_iff_sq_le 15 s (by norm_num) hs
  push_cast at h60 h40 h25 h15
  simp only [severityOfSq, THRESHOLDS_critical, THRESHOLDS_severe, THRESHOLDS_moderate,
    THRESHOLDS_minor]
  simp only [← h60, ← h40, ← h25, ← h15]

/-- Severity rank is monotone in the squared magnitude. -/
theorem sevRank_severityOfSq_mono {s t : ℚ} (h : s ≤ t) :
    sevRank (severityOfSq s) ≤ sevRank (severityOfSq t) := by
  simp only [severityOfSq, THRESHOLDS_critical, THRESHOLDS_severe, THRESHOLDS_moderate,
    THRESHOLDS_minor]
  split_ifs <;> first | (exfalso; linarith) | (simp only [sevRank]; omega)

/-- Squared magnitudes are non-negative. -/
theorem gForceSqOf_nonneg (a : Accel) : 0 ≤ gForceSqOf a := by
  simp only [gForceSqOf]; positivity

/-- Real form of the squared magnitude. -/
theorem gForceSqOf_cast (a : Accel) :
    (a.x : ℝ) ^ 2 + (a.y : ℝ) ^ 2 + (a.z : ℝ) ^ 2 = ((gForceSqOf a : ℚ) : ℝ) := by
  simp only [gForceSqOf]; push_cast; ring

/-- C4: `analyzeImpact` classifies severity from the acceleration
magnitude `sqrt(x^2 + y^2 + z^2)` by first-match-wins thresholds
inclusive at the lower bound — at least 60 critical, at least 40 severe,
at least 25 moderate, at least 15 minor, otherwise safe — and severity
rank is monotone non-decreasing in the magnitude. -/
theorem claim_C4 (a : Accel) (g : Gyro) :
    ((analyzeImpact a g).severity =
      (if (60 : ℝ) ≤ Real.sqrt ((a.x : ℝ) ^ 2 + (a.y : ℝ) ^ 2 + (a.z : ℝ) ^ 2) then
        Severity.critical
       else if (40 : ℝ) ≤ Real.sqrt ((a.x : ℝ) ^ 2 + (a.y : ℝ) ^ 2 + (a.z : ℝ) ^ 2) then
        Severity.severe
       else if (25 : ℝ) ≤ Real.sqrt ((a.x : ℝ) ^ 2 + (a.y : ℝ) ^ 2 + (a.z : ℝ) ^ 2) then
        Severity.moderate
       else if (15 : ℝ) ≤ Real.sqrt ((a.x : ℝ) ^ 2 + (a.y : ℝ) ^ 2 + (a.z : ℝ) ^ 2) then
        Severity.minor
       else Severity.safe)) ∧
    (∀ (b : Accel) (g2 : Gyro),
      Real.sqrt ((a.x : ℝ) ^ 2 + (a.y : ℝ) ^ 2 + (a.z : ℝ) ^ 2) ≤
        Real.sqrt ((b.x : ℝ) ^ 2 + (b.y : ℝ) ^ 2 + (b.z : ℝ) ^ 2) →
      sevRank (analyzeImpact a g).severity ≤ sevRank (analyzeImpact b g2).severity) := by
  constructor
  · show severityOfSq (gForceSqOf a) = _
    rw [gForceSqOf_cast a, severityOfSq_eq_sqrt_chain _ (gForceSqOf_nonneg a)]
  · intro b g2 h
    rw [gForceSqOf_cast a, gForceSqOf_cast b] at h
    have hq : gForceSqOf a ≤ gForceSqOf b := by
      have hb : (0 : ℝ) ≤ ((gForceSqOf b : ℚ) : ℝ) := by exact_mod_cast gForceSqOf_nonneg b
      exact_mod_cast (Real.sqrt_le_sqrt_iff hb).1 h
    exact sevRank_severityOfSq_mono hq

/-- C7: the impact direction is always one of the six direction strings;
it can equal None only when all three axes are exactly 0 (in fact the
branch chain of the source always overwrites the initial None, so the
implication is vacuous and the all-zero input yields Left); and the
direction is chosen by the axis of largest absolute value — ties going
to the earlier axis in x, y, z order — mapped by sign to Right/Left on
x, Forward/Backward on y, Upward/Downward on z. -/
theorem claim_C7 (a : Accel) (g : Gyro) :
    ((analyzeImpact a g).impactDirection ∈
      (["Left", "Right", "Forward", "Backward", "Upward", "Downward"] : List String)) ∧
    ((analyzeImpact a g).impactDirection = "None" → a.x = 0 ∧ a.y = 0 ∧ a.z = 0) ∧
    (|a.y| ≤ |a.x| → |a.z| ≤ |a.x| →
      (analyzeImpact a g).impactDirection = if 0 < a.x then "Right" else "Left") ∧
    (|a.x| < |a.y| → |a.z| ≤ |a.y| →
      (analyzeImpact a g).impactDirection = if 0 < a.y then "Forward" else "Backward") ∧
    (|a.x| < |a.z| → |a.y| < |a.z| →
      (analyzeImpact a g).impactDirection = if 0 < a.z then "Upward" else "Downward") := by
  have hx : ∀ (h1 : |a.y| ≤ |a.x|) (h2 : |a.z| ≤ |a.x|),
      directionOf a = if 0 < a.x then "Right" else "Left" := by
    intro h1 h2
    have hM : max (max |a.x| |a.y|) |a.z| = |a.x| := by
      rw [max_eq_left h1, max_eq_left h2]
    simp only [directionOf]
    rw [hM, if_pos rfl]
  have hy : ∀ (h1 : |a.x| < |a.y|) (h2 : |a.z| ≤ |a.y|),
      directionOf a = if 0 < a.y then "Forward" else "Backward" := by
    intro h1 h2
    have hM : max (max |a.x| |a.y|) |a.z| = |a.y| := by
      rw [max_eq_right h1.le, max_eq_left h2]
    simp only [directionOf]
    rw [hM, if_neg (ne_of_gt h1), if_pos rfl]
  have hz : ∀ (h1 : |a.x| < |a.z|) (h2 : |a.y| < |a.z|),
      directionOf a = if 0 < a.z then "Upward" else "Downward" := by
    intro h1 h2
    have hM : max (max |a.x| |a.y|) |a.z| = |a.z| := by
      rw [max_eq_right (le_of_lt (max_lt h1 h2))]
    simp only [directionOf]
    rw [hM, if_neg (ne_of_gt h1), if_neg (ne_of_gt h2)]
  have hcase : directionOf a = (if 0 < a.x then "Right" else "Left") ∨
      directionOf a = (if 0 < a.y then "Forward" else "Backward") ∨
      directionOf a = (if 0 < a.z then "Upward" else "Downward") := by
    rcases le_or_lt |a.y| |a.x| with h1 | h1
    · rcases le_or_lt |a.z| |a.x| with h2 | h2
      · exact Or.inl (hx h1 h2)
      · exact Or.inr (Or.inr (hz h2 (lt_of_le_of_lt h1 h2)))
    · rcases le_or_lt |a.z| |a.y| with h2 | h2
      · exact Or.inr (Or.inl (hy h1 h2))
      · exact Or.inr (Or.inr (hz (lt_trans h1 h2) h2))
  refine ⟨?_, ?_, hx, hy, hz⟩
  · show directionOf a ∈ _
    rcases hcase with h | h | h <;> rw [h] <;> split_ifs <;> decide
  · show directionOf a = "None" → _
    rcases hcase with h | h | h <;> rw [h] <;> split_ifs <;>
      (intro hh; exact absurd hh (by decide))

/-- `triggerEmergency` never touches the creation-time record. -/
theorem triggerEmergency_createdAt (s : SysState) :
    (triggerEmergency s).createdAt = s.createdAt := by
  unfold triggerEmergency
  cases s.activeCrash <;> rfl

/-- `triggerEmergency` never touches the cooldown ref. -/
theorem triggerEmergency_lastCrashTime (s : SysState) :
    (triggerEmergency s).lastCrashTime = s.lastCrashTime := by
  unfold triggerEmergency
  cases s.activeCrash <;> rfl

/-- `cancelAlert` never touches the creation-time record. -/
theorem cancelAlert_createdAt (s : SysState) :
    (cancelAlert s).createdAt = s.createdAt := by
  unfold cancelAlert
  cases s.activeCrash <;> rfl

/-- `cancelAlert` never touches the cooldown ref. -/
theorem cancelAlert_lastCrashTime (s : SysState) :
    (cancelAlert s).lastCrashTime = s.lastCrashTime := by
  unfold cancelAlert
  cases s.activeCrash <;> rfl

/-- A countdown interval firing never touches the creation-time record. -/
theorem tickCountdown_createdAt (s : SysState) :
    (tickCountdown s).createdAt = s.createdAt := by
  unfold tickCountdown
  split_ifs <;> simp [triggerEmergency_createdAt]

/-- A countdown interval firing never touches the cooldown ref. -/
theorem tickCountdown_lastCrashTime (s : SysState) :
    (tickCountdown s).lastCrashTime = s.lastCrashTime := by
  unfold tickCountdown
  split_ifs <;> simp [triggerEmergency_lastCrashTime]

/-- Prepending a creation time more than 30000 ms after every recorded
time keeps the gap property. -/
theorem pairwise_cons_of_gap {l : List ℤ} {last now : ℤ}
    (hpw : List.Pairwise (fun t u => 30000 < t - u) l)
    (hle : ∀ t ∈ l, t ≤ last) (hgap : 30000 < now - last) :
    List.Pairwise (fun t u => 30000 < t - u) (now :: l) ∧ ∀ t ∈ now :: l, t ≤ now := by
  constructor
  · exact List.Pairwise.cons (fun u hu => by have := hle u hu; linarith) hpw
  · intro t ht
    rcases List.mem_cons.1 ht with rfl | ht
    · exact le_refl t
    · have := hle t ht; linarith

/-- Every stimulus preserves the cooldown invariant. -/
theorem cooldownInv_applyStep (s : SysState) (st : Step) (h : cooldownInv s) :
    cooldownInv (applyStep s st) := by
  obtain ⟨hpw, hle⟩ := h
  cases st with
  | sample now sensor loc =>
    show cooldownInv (processSample now sensor loc s)
    simp only [processSample]
    by_cases hmon : s.isMonitoring = true
    · rw [if_neg (not_not_intro hmon)]
      by_cases hcond : (analyzeImpact sensor.acceleration sensor.gyroscope).severity ≠
          Severity.safe ∧ 30000 < now - s.lastCrashTime ∧ s.activeCrash = none
      · rw [if_pos hcond]
        split_ifs <;> exact pairwise_cons_of_gap hpw hle hcond.2.1
      · rw [if_neg hcond]
        exact ⟨hpw, hle⟩
    · rw [if_pos hmon]
      exact ⟨hpw, hle⟩
  | tick =>
    show cooldownInv (tickCountdown s)
    rw [cooldownInv, tickCountdown_createdAt, tickCountdown_lastCrashTime]
    exact ⟨hpw, hle⟩
  | trigger =>
    show cooldownInv (triggerEmergency s)
    rw [cooldownInv, triggerEmergency_createdAt, triggerEmergency_lastCrashTime]
    exact ⟨hpw, hle⟩
  | cancel =>
    show cooldownInv (cancelAlert s)
    rw [cooldownInv, cancelAlert_createdAt, cancelAlert_lastCrashTime]
    exact ⟨hpw, hle⟩
  | setMonitoring b =>
    exact ⟨hpw, hle⟩

/-- The cooldown invariant holds along every run. -/
theorem cooldownInv_runSteps (steps : List Step) (s : SysState) (h : cooldownInv s) :
    cooldownInv (runSteps steps s) := by
  induction steps generalizing s with
  | nil => exact h
  | cons st rest ih => exact ih (applyStep s st) (cooldownInv_applyStep s st h)

/-- C2: while an escalation session is active, processing any further
sensor sample leaves the session, the history, the creation record and
the countdown untouched — no second session starts and no second
CrashEvent is created. -/
theorem claim_C2 (now : ℤ) (sensor : SensorSample) (loc : Option LocationData)
    (s : SysState) (c : CrashEvent) (h : s.activeCrash = some c) :
    (processSample now sensor loc s).activeCrash = some c ∧
    (processSample now sensor loc s).crashHistory = s.crashHistory ∧
    (processSample now sensor loc s).createdAt = s.createdAt ∧
    (processSample now sensor loc s).countdown = s.countdown := by
  simp only [processSample]
  by_cases hmon : s.isMonitoring = true
  · have hnc : ¬ ((analyzeImpact sensor.acceleration sensor.gyroscope).severity ≠
        Severity.safe ∧ 30000 < now - s.lastCrashTime ∧ s.activeCrash = none) := by
      rintro ⟨-, -, hnone⟩
      rw [h] at hnone
      exact Option.noConfusion hnone
    rw [if_neg (not_not_intro hmon), if_neg hnc]
    exact ⟨h, rfl, rfl, rfl⟩
  · rw [if_pos hmon]
    exact ⟨h, rfl, rfl, rfl⟩

/-- C3: a non-safe analysis is suppressed — no CrashEvent constructed,
no state change beyond the display analysis — whenever at most 30000 ms
elapsed since `lastCrashTime` or a session is active; a non-safe sample
strictly more than 30000 ms after the last detection with no active
session constructs a new CrashEvent and moves `lastCrashTime` to `now`;
and along every run from the initial state, any two CrashEvent creation
times are strictly more than 30000 ms apart. -/
theorem claim_C3 :
    (∀ (now : ℤ) (sensor : SensorSample) (loc : Option LocationData) (s : SysState),
      (analyzeImpact sensor.acceleration sensor.gyroscope).severity ≠ Severity.safe →
      (now - s.lastCrashTime ≤ 30000 ∨ s.activeCrash ≠ none) →
      (processSample now sensor loc s).createdAt = s.createdAt ∧
      (processSample now sensor loc s).crashHistory = s.crashHistory ∧
      (processSample now sensor loc s).activeCrash = s.activeCrash ∧
      (processSample now sensor loc s).lastCrashTime = s.lastCrashTime) ∧
    (∀ (now : ℤ) (sensor : SensorSample) (loc : Option LocationData) (s : SysState),
      (analyzeImpact sensor.acceleration sensor.gyroscope).severity ≠ Severity.safe →
      30000 < now - s.lastCrashTime → s.activeCrash = none → s.isMonitoring = true →
      (processSample now sensor loc s).lastCrashTime = now ∧
      (processSample now sensor loc s).createdAt = now :: s.createdAt) ∧
    (∀ steps : List Step,
      List.Pairwise (fun t u => 30000 < t - u) (runSteps steps initialState).createdAt) := by
  refine ⟨?_, ?_, ?_⟩
  · intro now sensor loc s hsev hsup
    simp only [processSample]
    by_cases hmon : s.isMonitoring = true
    · have hnc : ¬ ((analyzeImpact sensor.acceleration sensor.gyroscope).severity ≠
          Severity.safe ∧ 30000 < now - s.lastCrashTime ∧ s.activeCrash = none) := by
        rintro ⟨-, hgap, hnone⟩
        rcases hsup with hsup | hsup
        · linarith
        · exact hsup hnone
      rw [if_neg (not_not_intro hmon), if_neg hnc]
      exact ⟨rfl, rfl, rfl, rfl⟩
    · rw [if_pos hmon]
      exact ⟨rfl, rfl, rfl, rfl⟩
  · intro now sensor loc s hsev hgap hact hmon
    simp only [processSample]
    rw [if_neg (not_not_intro hmon), if_pos ⟨hsev, hgap, hact⟩]
    split_ifs <;> exact ⟨rfl, rfl⟩
  · intro steps
    exact (cooldownInv_runSteps steps initialState ⟨List.Pairwise.nil, by simp [initialState]⟩).1

/-- C5: cancelling while a session is armed, at any countdown value,
appends the crash to the history with `reported = false`, builds no
report, never invokes the dispatcher, clears the session and dialog, and
a countdown interval firing afterwards changes nothing (no further tick
or auto-trigger). -/
theorem claim_C5 (s : SysState) (c : CrashEvent) (h : s.activeCrash = some c) :
    (cancelAlert s).crashHistory = pushCrash { c with reported := false } s.crashHistory ∧
    (cancelAlert s).crashHistory.head? = some { c with reported := false } ∧
    (cancelAlert s).reportsBuilt = s.reportsBuilt ∧
    (cancelAlert s).dispatcherCalls = s.dispatcherCalls ∧
    (cancelAlert s).activeCrash = none ∧
    (cancelAlert s).showCrashDialog = false ∧
    tickCountdown (cancelAlert s) = cancelAlert s := by
  simp only [cancelAlert, h]
  refine ⟨?_, ?_, ?_, ?_, ?_, ?_, ?_⟩ <;> first | rfl | trivial

/-- C6: a qualifying detection that starts an escalation session arms it
with countdown 10 when the analysis severity is critical and countdown
15 when it is moderate or severe. -/
theorem claim_C6 (now : ℤ) (sensor : SensorSample) (loc : Option LocationData)
    (s : SysState) (hmon : s.isMonitoring = true) (hact : s.activeCrash = none)
    (hgap : 30000 < now - s.lastCrashTime) :
    ((analyzeImpact sensor.acceleration sensor.gyroscope).severity = Severity.critical →
      (processSample now sensor loc s).countdown = 10 ∧
      (processSample now sensor loc s).activeCrash =
        some (mkCrashEvent now (analyzeImpact sensor.acceleration sensor.gyroscope)
          sensor.gyroscope loc)) ∧
    ((analyzeImpact sensor.acceleration sensor.gyroscope).severity = Severity.moderate ∨
        (analyzeImpact sensor.acceleration sensor.gyroscope).severity = Severity.severe →
      (processSample now sensor loc s).countdown = 15 ∧
      (processSample now sensor loc s).activeCrash =
        some (mkCrashEvent now (analyzeImpact sensor.acceleration sensor.gyroscope)
          sensor.gyroscope loc)) := by
  constructor
  · intro hsev
    simp only [processSample]
    rw [if_neg (not_not_intro hmon), if_pos ⟨by simp [hsev], hgap, hact⟩,
      if_pos (Or.inr (Or.inr hsev)), if_pos hsev]
    exact ⟨rfl, rfl⟩
  · intro hsev
    simp only [processSample]
    have hns : (analyzeImpact sensor.acceleration sensor.gyroscope).severity ≠
        Severity.safe := by rcases hsev with h | h <;> simp [h]
    have hmod : (analyzeImpact sensor.acceleration sensor.gyroscope).severity =
        Severity.moderate ∨
        (analyzeImpact sensor.acceleration sensor.gyroscope).severity = Severity.severe ∨
        (analyzeImpact sensor.acceleration sensor.gyroscope).severity = Severity.critical := by
      rcases hsev with h | h
      · exact Or.inl h
      · exact Or.inr (Or.inl h)
    have hncrit : ¬ (analyzeImpact sensor.acceleration sensor.gyroscope).severity =
        Severity.critical := by rcases hsev with h | h <;> simp [h]
    rw [if_neg (not_not_intro hmon), if_pos ⟨hns, hgap, hact⟩, if_pos hmod, if_neg hncrit]
    exact ⟨rfl, rfl⟩

/-- C1 (amended): when the countdown interval fires at countdown 1 with
a session armed, the crash is appended to the history marked
`reported = true`, exactly one report is built for it, and the
dispatcher is invoked once; the session is cleared, so a further manual
`triggerEmergency` in the same tick appends nothing and builds no second
report — but it does invoke the dispatcher a second time, because the
`onEmergencyTrigger` call of the source sits outside the active-crash
guard. -/
theorem claim_C1 (s : SysState) (c : CrashEvent) (hac : s.activeCrash = some c)
    (ht : s.timerActive = true) (hcd : s.countdown ≤ 1) :
    (tickCountdown s).crashHistory = pushCrash { c with reported := true } s.crashHistory ∧
    (tickCountdown s).reportsBuilt =
      generateCrashReport { c with reported := true } :: s.reportsBuilt ∧
    (tickCountdown s).dispatcherCalls = s.dispatcherCalls + 1 ∧
    (tickCountdown s).activeCrash = none ∧
    (tickCountdown s).countdown = 0 ∧
    (tickCountdown s).timerActive = false ∧
    (triggerEmergency (tickCountdown s)).reportsBuilt = (tickCountdown s).reportsBuilt ∧
    (triggerEmergency (tickCountdown s)).crashHistory = (tickCountdown s).crashHistory ∧
    (triggerEmergency (tickCountdown s)).dispatcherCalls =
      (tickCountdown s).dispatcherCalls + 1 := by
  simp only [tickCountdown, triggerEmergency, hac, ht, hcd]
  simp

/-- The severity of the moderate fixture sample is moderate. -/
theorem moderateSample_severity :
    (analyzeImpact moderateSample.acceleration moderateSample.gyroscope).severity =
      Severity.moderate := by
  norm_num [analyzeImpact, severityOfSq, gForceSqOf, moderateSample, THRESHOLDS_critical,
    THRESHOLDS_severe, THRESHOLDS_moderate, THRESHOLDS_minor]

/-- Processing the moderate fixture sample from the initial state arms
the session at countdown 15. -/
theorem armed_after_sample :
    processSample 40000 moderateSample none initialState = armedState := by
  have hsev := moderateSample_severity
  simp only [processSample, initialState, armedState, armedAtOne]
  rw [if_neg (by norm_num), if_pos ⟨by rw [hsev]; decide, by norm_num, by norm_num⟩,
    if_pos (Or.inl hsev), if_neg (by rw [hsev]; decide)]
  rfl

/-- While armed with at least two seconds left, an interval firing just
decrements the countdown. -/
theorem tickCountdown_dec (s : SysState) (ht : s.timerActive = true)
    (hcd : 2 ≤ s.countdown) :
    tickCountdown s = { s with countdown := s.countdown - 1 } := by
  simp only [tickCountdown, ht]
  rw [if_pos trivial, if_neg (by omega)]

/-- While armed with more than `n` seconds left, `n` interval firings
decrement the countdown `n` times. -/
theorem tickCountdown_iter (n : ℕ) : ∀ (s : SysState), s.timerActive = true →
    n + 1 ≤ s.countdown → tickCountdown^[n] s = { s with countdown := s.countdown - n } := by
  induction n with
  | zero => intro s ht h; rfl
  | succ n ih =>
    intro s ht h
    rw [Function.iterate_succ_apply, tickCountdown_dec s ht (by omega),
      ih { s with countdown := s.countdown - 1 } ht
        (show n + 1 ≤ s.countdown - 1 by omega)]
    congr 1
    dsimp only
    omega

/-- C1 counterexample to the claim as stated: arming on a moderate
sample, letting the countdown run to 0 (the 15th interval firing
auto-triggers), then one manual `triggerEmergency` in the same tick
yields two dispatcher invocations — not exactly one — while only a
single report was built. -/
theorem claim_C1_counterexample :
    (runSteps [Step.sample 40000 moderateSample none, Step.tick, Step.tick, Step.tick,
        Step.tick, Step.tick, Step.tick, Step.tick, Step.tick, Step.tick, Step.tick,
        Step.tick, Step.tick, Step.tick, Step.tick, Step.tick, Step.trigger]
      initialState).dispatcherCalls = 2 ∧
    (runSteps [Step.sample 40000 moderateSample none, Step.tick, Step.tick, Step.tick,
        Step.tick, Step.tick, Step.tick, Step.tick, Step.tick, Step.tick, Step.tick,
        Step.tick, Step.tick, Step.tick, Step.tick, Step.tick, Step.trigger]
      initialState).reportsBuilt.length = 1 ∧
    ¬ ((runSteps [Step.sample 40000 moderateSample none, Step.tick, Step.tick, Step.tick,
        Step.tick, Step.tick, Step.tick, Step.tick, Step.tick, Step.tick, Step.tick,
        Step.tick, Step.tick, Step.tick, Step.tick, Step.tick, Step.trigger]
      initialState).dispatcherCalls = 1) := by
  have e0 : runSteps [Step.sample 40000 moderateSample none, Step.tick, Step.tick, Step.tick,
        Step.tick, Step.tick, Step.tick, Step.tick, Step.tick, Step.tick, Step.tick,
        Step.tick, Step.tick, Step.tick, Step.tick, Step.tick, Step.trigger]
      initialState =
      triggerEmergency (tickCountdown
        (tickCountdown^[14] (processSample 40000 moderateSample none initialState))) := rfl
  rw [e0, armed_after_sample,
    tickCountdown_iter 14 armedState rfl (by norm_num [armedState, armedAtOne])]
  norm_num [armedState, armedAtOne, tickCountdown, triggerEmergency]

/-- Any bounded append keeps at most 20 entries. -/
theorem pushCrash_length_le (e : CrashEvent) (l : List CrashEvent) :
    (pushCrash e l).length ≤ 20 := by
  simp only [pushCrash, List.length_take]
  exact min_le_left _ _

/-- `triggerEmergency` keeps the history within the 20-entry bound. -/
theorem triggerEmergency_hist_len (s : SysState) (h : s.crashHistory.length ≤ 20) :
    (triggerEmergency s).crashHistory.length ≤ 20 := by
  unfold triggerEmergency
  cases s.activeCrash
  · exact h
  · exact pushCrash_length_le _ _

/-- `cancelAlert` keeps the history within the 20-entry bound. -/
theorem cancelAlert_hist_len (s : SysState) (h : s.crashHistory.length ≤ 20) :
    (cancelAlert s).crashHistory.length ≤ 20 := by
  unfold cancelAlert
  cases s.activeCrash
  · exact h
  · exact pushCrash_length_le _ _

/-- A countdown tick keeps the history within the 20-entry bound. -/
theorem tickCountdown_hist_len (s : SysState) (h : s.crashHistory.length ≤ 20) :
    (tickCountdown s).crashHistory.length ≤ 20 := by
  unfold tickCountdown
  split_ifs
  · exact triggerEmergency_hist_len s h
  · exact h
  · exact h

/-- C8: every append site keeps the CrashEventLog at 20 entries or
fewer; appending to a full log of 20 keeps the new entry plus the 19
most recent old ones, evicting the oldest (FIFO by insertion); and along
every run from the initial state the history never exceeds 20 entries. -/
theorem claim_C8 :
    (∀ (e : CrashEvent) (l : List CrashEvent), (pushCrash e l).length ≤ 20) ∧
    (∀ (e : CrashEvent) (l : List CrashEvent), l.length = 20 →
      pushCrash e l = e :: l.dropLast) ∧
    (∀ steps : List Step, (runSteps steps initialState).crashHistory.length ≤ 20) := by
  refine ⟨pushCrash_length_le, ?_, ?_⟩
  · intro e l hl
    show (e :: l).take 20 = e :: l.dropLast
    rw [show (20 : ℕ) = 19 + 1 from rfl, List.take_succ_cons, List.dropLast_eq_take, hl]
  · have hstep : ∀ (s : SysState) (st : Step), s.crashHistory.length ≤ 20 →
        (applyStep s st).crashHistory.length ≤ 20 := by
      intro s st h
      cases st with
      | sample now sensor loc =>
        show (processSample now sensor loc s).crashHistory.length ≤ 20
        simp only [processSample]
        split_ifs <;> first | exact h | exact pushCrash_length_le _ _
      | tick => exact tickCountdown_hist_len s h
      | trigger => exact triggerEmergency_hist_len s h
      | cancel => exact cancelAlert_hist_len s h
      | setMonitoring b => exact h
    intro steps
    have : ∀ (l : List Step) (s : SysState), s.crashHistory.length ≤ 20 →
        (runSteps l s).crashHistory.length ≤ 20 := by
      intro l
      induction l with
      | nil => intro s h; exact h
      | cons st rest ih => intro s h; exact ih (applyStep s st) (hstep s st h)
    exact this steps initialState (by simp [initialState])

/-- The ToFixed rounding loses nothing on a value that is an integer
multiple of `10 ^ (-d)`: the denoted value is the input itself. -/
theorem toFixedVal_exact (d : ℕ) (q : ℚ) (m : ℤ) (hm : q = (m : ℚ) / 10 ^ d) :
    toFixedVal d q = q := by
  have h10 : (0 : ℚ) < 10 ^ d := by positivity
  have hqm : q * 10 ^ d = (m : ℚ) := by
    rw [hm]
    field_simp
  unfold toFixedVal toFixedInt
  by_cases hq : q < 0
  · rw [if_pos hq]
    have hmneg : (m : ℚ) < 0 := by
      rw [← hqm]
      exact mul_neg_of_neg_of_pos hq h10
    have hm2 : -q * 10 ^ d = ((-m : ℤ) : ℚ) := by
      push_cast
      linarith [hqm]
    have hfloor : ⌊-q * 10 ^ d + 1 / 2⌋ = -m := by
      rw [hm2]
      rw [Int.floor_eq_iff]
      constructor
      · push_cast; linarith
      · push_cast; linarith
    rw [hfloor]
    have hnn : (0 : ℤ) ≤ -m := le_of_lt (neg_pos.mpr (by exact_mod_cast hmneg))
    rw [show (((-m).toNat : ℕ) : ℚ) = -(m : ℚ) by exact_mod_cast Int.toNat_of_nonneg hnn,
      hm]
    ring
  · rw [if_neg hq]
    push_neg at hq
    have hmpos : (0 : ℚ) ≤ (m : ℚ) := by
      rw [← hqm]
      exact mul_nonneg hq (le_of_lt h10)
    have hfloor : ⌊q * 10 ^ d + 1 / 2⌋ = m := by
      rw [hqm, Int.floor_eq_iff]
      constructor
      · linarith
      · linarith
    rw [hfloor]
    have hnn : (0 : ℤ) ≤ m := by exact_mod_cast hmpos
    rw [show ((m.toNat : ℕ) : ℚ) = (m : ℚ) by exact_mod_cast Int.toNat_of_nonneg hnn, hm]

/-- C9: building a report from a crash with a location renders that
location as the two coordinates to six decimals (and six-decimal
rounding is exact on coordinates that are integer multiples of
one-millionth, so such a location is reproduced verbatim), and yields a
non-null maps link interpolating the same raw coordinates; without a
location both render as Unknown/null rather than failing; an absent
speed renders as Unknown; and the report id equals the event id. -/
theorem claim_C9 (crash : CrashEvent) :
    (∀ lat lng : ℚ, crash.location = some { lat := lat, lng := lng } →
      (generateCrashReport crash).location =
        toFixedStr 6 lat ++ ", " ++ toFixedStr 6 lng ∧
      (generateCrashReport crash).mapsLink =
        some ("https://maps.google.com/?q=" ++ jsNumStr lat ++ "," ++ jsNumStr lng) ∧
      ((generateCrashReport crash).mapsLink).isSome = true ∧
      (∀ mlat : ℤ, lat = (mlat : ℚ) / 10 ^ 6 → toFixedVal 6 lat = lat) ∧
      (∀ mlng : ℤ, lng = (mlng : ℚ) / 10 ^ 6 → toFixedVal 6 lng = lng)) ∧
    (crash.location = none →
      (generateCrashReport crash).location = "Unknown" ∧
      (generateCrashReport crash).mapsLink = none) ∧
    (crash.speed = none → (generateCrashReport crash).speedAtImpact = "Unknown") ∧
    (generateCrashReport crash).reportId = crash.id := by
  refine ⟨?_, ?_, ?_, rfl⟩
  · intro lat lng hloc
    refine ⟨?_, ?_, ?_, fun mlat hm => toFixedVal_exact 6 lat mlat hm,
      fun mlng hm => toFixedVal_exact 6 lng mlng hm⟩ <;>
      simp [generateCrashReport, hloc]
  · intro hloc
    constructor <;> simp [generateCrashReport, hloc]
  · intro hs
    simp [generateCrashReport, hs]

/-- C10: a detection whose location provider reports a speed of exactly
0 m/s constructs its CrashEvent with the speed field omitted — the event
is identical to one built with no speed reading at all — so the report
renders speedAtImpact as Unknown instead of 0 km/h. -/
theorem claim_C10 (now : ℤ) (analysis : ImpactAnalysis) (gyro : Gyro) (l : LocationData)
    (hs : l.speed = some 0) :
    (mkCrashEvent now analysis gyro (some l)).speed = none ∧
    mkCrashEvent now analysis gyro (some l) =
      mkCrashEvent now analysis gyro (some { l with speed := none }) ∧
    (generateCrashReport (mkCrashEvent now analysis gyro (some l))).speedAtImpact =
      "Unknown" := by
  refine ⟨?_, ?_, ?_⟩ <;> simp [mkCrashEvent, generateCrashReport, hs]

/-- The severity of the critical fixture sample is critical. -/
theorem criticalSample_severity :
    (analyzeImpact criticalSample.acceleration criticalSample.gyroscope).severity =
      Severity.critical := by
  norm_num [analyzeImpact, severityOfSq, gForceSqOf, criticalSample, THRESHOLDS_critical,
    THRESHOLDS_severe, THRESHOLDS_moderate, THRESHOLDS_minor]

/-- Witness for C1 at the concrete armed fixture. -/
theorem claim_C1_witness :
    (tickCountdown armedAtOne).crashHistory =
      pushCrash { sampleCrash with reported := true } armedAtOne.crashHistory ∧
    (tickCountdown armedAtOne).reportsBuilt =
      generateCrashReport { sampleCrash with reported := true } :: armedAtOne.reportsBuilt ∧
    (tickCountdown armedAtOne).dispatcherCalls = armedAtOne.dispatcherCalls + 1 ∧
    (tickCountdown armedAtOne).activeCrash = none ∧
    (tickCountdown armedAtOne).countdown = 0 ∧
    (tickCountdown armedAtOne).timerActive = false ∧
    (triggerEmergency (tickCountdown armedAtOne)).reportsBuilt =
      (tickCountdown armedAtOne).reportsBuilt ∧
    (triggerEmergency (tickCountdown armedAtOne)).crashHistory =
      (tickCountdown armedAtOne).crashHistory ∧
    (triggerEmergency (tickCountdown armedAtOne)).dispatcherCalls =
      (tickCountdown armedAtOne).dispatcherCalls + 1 :=
  claim_C1 armedAtOne sampleCrash rfl rfl (le_refl 1)

/-- Witness for C2 at the concrete armed fixture. -/
theorem claim_C2_witness :
    (processSample 50000 moderateSample none armedState).activeCrash = some sampleCrash ∧
    (processSample 50000 moderateSample none armedState).crashHistory =
      armedState.crashHistory ∧
    (processSample 50000 moderateSample none armedState).createdAt = armedState.createdAt ∧
    (processSample 50000 moderateSample none armedState).countdown =
      armedState.countdown :=
  claim_C2 50000 moderateSample none armedState sampleCrash rfl

/-- Witness for C3: suppression at the armed fixture, creation from the
initial state, and the pairwise gap along a concrete run. -/
theorem claim_C3_witness :
    ((processSample 50000 moderateSample none armedState).createdAt =
        armedState.createdAt ∧
      (processSample 50000 moderateSample none armedState).crashHistory =
        armedState.crashHistory ∧
      (processSample 50000 moderateSample none armedState).activeCrash =
        armedState.activeCrash ∧
      (processSample 50000 moderateSample none armedState).lastCrashTime =
        armedState.lastCrashTime) ∧
    ((processSample 80000 moderateSample none initialState).lastCrashTime = 80000 ∧
      (processSample 80000 moderateSample none initialState).createdAt =
        80000 :: initialState.createdAt) ∧
    List.Pairwise (fun t u => 30000 < t - u)
      (runSteps [Step.sample 40000 moderateSample none, Step.tick] initialState).createdAt := by
  refine ⟨claim_C3.1 50000 moderateSample none armedState
      (by rw [moderateSample_severity]; decide) (Or.inr (by simp [armedState, armedAtOne])),
    claim_C3.2.1 80000 moderateSample none initialState
      (by rw [moderateSample_severity]; decide) (by norm_num [initialState]) rfl rfl,
    claim_C3.2.2 [Step.sample 40000 moderateSample none, Step.tick]⟩

/-- Witness for C4: the magnitude-30 sample ranks no higher than the
magnitude-60 sample. -/
theorem claim_C4_witness :
    sevRank (analyzeImpact { x := 30, y := 0, z := 0 } { alpha := 0, beta := 0, gamma := 0 }).severity ≤
      sevRank (analyzeImpact { x := 0, y := 60, z := 0 } { alpha := 0, beta := 0, gamma := 0 }).severity :=
  (claim_C4 { x := 30, y := 0, z := 0 } { alpha := 0, beta := 0, gamma := 0 }).2
    { x := 0, y := 60, z := 0 } { alpha := 0, beta := 0, gamma := 0 }
    (by
      apply Real.sqrt_le_sqrt
      push_cast
      norm_num)

/-- Witness for C5 at the concrete armed fixture. -/
theorem claim_C5_witness :
    (cancelAlert armedState).crashHistory =
      pushCrash { sampleCrash with reported := false } armedState.crashHistory ∧
    (cancelAlert armedState).crashHistory.head? =
      some { sampleCrash with reported := false } ∧
    (cancelAlert armedState).reportsBuilt = armedState.reportsBuilt ∧
    (cancelAlert armedState).dispatcherCalls = armedState.dispatcherCalls ∧
    (cancelAlert armedState).activeCrash = none ∧
    (cancelAlert armedState).showCrashDialog = false ∧
    tickCountdown (cancelAlert armedState) = cancelAlert armedState :=
  claim_C5 armedState sampleCrash rfl

/-- Witness for C6: the critical fixture arms at countdown 10, the
moderate fixture at countdown 15. -/
theorem claim_C6_witness :
    ((processSample 80000 criticalSample none initialState).countdown = 10 ∧
      (processSample 80000 criticalSample none initialState).activeCrash =
        some (mkCrashEvent 80000
          (analyzeImpact criticalSample.acceleration criticalSample.gyroscope)
          criticalSample.gyroscope none)) ∧
    ((processSample 80000 moderateSample none initialState).countdown = 15 ∧
      (processSample 80000 moderateSample none initialState).activeCrash =
        some (mkCrashEvent 80000
          (analyzeImpact moderateSample.acceleration moderateSample.gyroscope)
          moderateSample.gyroscope none)) :=
  ⟨(claim_C6 80000 criticalSample none initialState rfl rfl
      (by norm_num [initialState])).1 criticalSample_severity,
   (claim_C6 80000 moderateSample none initialState rfl rfl
      (by norm_num [initialState])).2 (Or.inl moderateSample_severity)⟩

/-- Witness for C7: on acceleration (-3, 5, -5) the y axis wins the tie
with z and the direction is Forward. -/
theorem claim_C7_witness :
    (analyzeImpact { x := -3, y := 5, z := -5 }
      { alpha := 0, beta := 0, gamma := 0 }).impactDirection =
      (if (0 : ℚ) < 5 then "Forward" else "Backward") :=
  (claim_C7 { x := -3, y := 5, z := -5 } { alpha := 0, beta := 0, gamma := 0 }).2.2.2.1
    (by norm_num) (by norm_num)

/-- Witness for C8: appending to a full 20-entry log keeps the newest 20
and drops the oldest. -/
theorem claim_C8_witness :
    pushCrash sampleCrash (List.replicate 20 sampleCrash) =
      sampleCrash :: (List.replicate 20 sampleCrash).dropLast :=
  claim_C8.2.1 sampleCrash (List.replicate 20 sampleCrash) (by simp)

/-- Witness for C9 at a concrete located crash. -/
theorem claim_C9_witness :
    (generateCrashReport locatedCrash).location =
      toFixedStr 6 (12.5 : ℚ) ++ ", " ++ toFixedStr 6 (-3.25 : ℚ) ∧
    (generateCrashReport locatedCrash).mapsLink =
      some ("https://maps.google.com/?q=" ++ jsNumStr (12.5 : ℚ) ++ "," ++
        jsNumStr (-3.25 : ℚ)) ∧
    ((generateCrashReport locatedCrash).mapsLink).isSome = true ∧
    toFixedVal 6 (12.5 : ℚ) = 12.5 ∧
    (generateCrashReport locatedCrash).reportId = locatedCrash.id := by
  have h := (claim_C9 locatedCrash).1 12.5 (-3.25) rfl
  exact ⟨h.1, h.2.1, h.2.2.1, h.2.2.2.1 12500000 (by norm_num),
    (claim_C9 locatedCrash).2.2.2⟩

/-- Witness for C10 at the standstill location fixture. -/
theorem claim_C10_witness :
    (mkCrashEvent 40000 (analyzeImpact moderateSample.acceleration moderateSample.gyroscope)
      moderateSample.gyroscope (some stillLocation)).speed = none ∧
    mkCrashEvent 40000 (analyzeImpact moderateSample.acceleration moderateSample.gyroscope)
      moderateSample.gyroscope (some stillLocation) =
      mkCrashEvent 40000 (analyzeImpact moderateSample.acceleration moderateSample.gyroscope)
        moderateSample.gyroscope (some { stillLocation with speed := none }) ∧
    (generateCrashReport (mkCrashEvent 40000
      (analyzeImpact moderateSample.acceleration moderateSample.gyroscope)
      moderateSample.gyroscope (some stillLocation))).speedAtImpact = "Unknown" :=
  claim_C10 40000 (analyzeImpact moderateSample.acceleration moderateSample.gyroscope)
    moderateSample.gyroscope stillLocation rfl

end RiderAssist
